import Mathlib

/-! Comment service handlers (modules/comment/service/service.go)

A shallow embedding of the gRPC handlers of the comment service.  The storage
layer (`dao.CommentDAO`) and the peer video client (`videopb.VideoClient`) are
interfaces in the source; here they are records of state-passing functions over
an arbitrary world state `σ`, so that every theorem quantifies over every
behaviour of the collaborators.  Each handler returns its two Go results
(response pointer, error), the list of collaborator calls it made, in order,
and the world state it left behind.
-/

set_option autoImplicit false

namespace CommentService

/-! ## Errors -/

/-- Go error values.  A `sentinel` is a package-level error variable, identified
by its declaration; `wrap` is an error whose `Unwrap` method yields `inner`
(for instance the result of `fmt.Errorf` with the `%w` verb). -/
inductive GoError where
  | sentinel (name : String)
  | wrap (msg : String) (inner : GoError)
  deriving DecidableEq, Repr

/-- The standard library's `errors.Is` on non-nil arguments: walk the `Unwrap`
chain of `err` and compare each link with `target`. -/
def errorsIs : GoError → GoError → Bool
  | .sentinel n, target => decide (GoError.sentinel n = target)
  | .wrap m inner, target => decide (GoError.wrap m inner = target) || errorsIs inner target

/-- Modelled from the spec: `dao.ErrCommentNotFound`, the data-access layer's
not-found error value (package `comment/dao` is absent). -/
def dao.ErrCommentNotFound : GoError := .sentinel "comment/dao.ErrCommentNotFound"

/-- Modelled from the spec: the service-level malformed-identifier error
`ErrInvalidUUID` (declared outside service.go). -/
def ErrInvalidUUID : GoError := .sentinel "comment/service.ErrInvalidUUID"

/-- Modelled from the spec: the service-level not-found error
`ErrCommentNotFound` (declared outside service.go), a stable value distinct from
the data-access error values. -/
def ErrCommentNotFound : GoError := .sentinel "comment/service.ErrCommentNotFound"

/-! ## Identifiers -/

/-- The type `uuid.UUID`, a 16-byte array, read as a 128-bit number.  Its zero
value is `uuid.Nil`. -/
abbrev UUID := Fin (2 ^ 128)

/-- The two functions of package `github.com/google/uuid` the handlers use:
`uuid.Parse` (`none` when it returns an error) and `UUID.String`. -/
structure UUIDLib where
  Parse : String → Option UUID
  ToString : UUID → String

/-! ## Data model -/

/-- The record `dao.Comment`: the fields service.go reads or writes. -/
structure Comment where
  ID : UUID
  VideoID : String
  Content : String
  deriving DecidableEq, Repr

/-- The zero value of `dao.Comment`, what `new(dao.Comment)` points to. -/
def Comment.zero : Comment := ⟨0, "", ""⟩

/-- The protobuf message `pb.CommentInfo`. -/
structure CommentInfo where
  Id : String
  VideoId : String
  Content : String
  deriving DecidableEq, Repr

/-- Modelled from the spec: `(*dao.Comment).ToProto` of dao/comment.go (absent),
which transforms the data schema of the DAO into the protobuf one, field by
field. -/
def Comment.ToProto (lib : UUIDLib) (c : Comment) : CommentInfo :=
  ⟨lib.ToString c.ID, c.VideoID, c.Content⟩

/-! ## Requests and responses -/

structure HealthzResponse where
  Status : String
  deriving DecidableEq, Repr

structure ListCommentRequest where
  VideoId : String
  Limit : Int
  Offset : Int
  deriving DecidableEq, Repr

structure ListCommentResponse where
  Comments : List CommentInfo
  deriving DecidableEq, Repr

structure CreateCommentRequest where
  VideoId : String
  Content : String
  deriving DecidableEq, Repr

structure CreateCommentResponse where
  Id : String
  deriving DecidableEq, Repr

structure UpdateCommentRequest where
  Id : String
  Content : String
  deriving DecidableEq, Repr

structure UpdateCommentResponse where
  Comment : CommentInfo
  deriving DecidableEq, Repr

structure DeleteCommentRequest where
  Id : String
  deriving DecidableEq, Repr

structure DeleteCommentResponse where
  deriving DecidableEq, Repr

structure DeleteCommentByVideoIDRequest where
  VideoId : String
  deriving DecidableEq, Repr

structure DeleteCommentByVideoIDResponse where
  deriving DecidableEq, Repr

/-- The message `videopb.GetVideoRequest`. -/
structure GetVideoRequest where
  Id : String
  deriving DecidableEq, Repr

/-! ## Collaborators -/

/-- The interface `dao.CommentDAO` over a world state `σ`.  A Go error result is
an `Option GoError` (`none` is `nil`).  `Create` and `Update` receive a pointer
to the comment; `Update` also returns the contents of the pointee when it
returns, since the handler reads the pointee afterwards.  The comments a list
call returns are non-nil pointers. -/
structure CommentDAO (σ : Type) where
  ListByVideoID : String → Int → Int → σ → (List Comment × Option GoError) × σ
  Create : Comment → σ → (UUID × Option GoError) × σ
  Update : Comment → σ → (Comment × Option GoError) × σ
  Delete : UUID → σ → Option GoError × σ
  DeleteByVideoID : String → σ → Option GoError × σ

/-- The interface `videopb.VideoClient`, restricted to the method used here.
`V` is the response message type, which the comment service never inspects. -/
structure VideoClient (σ V : Type) where
  GetVideo : GetVideoRequest → σ → (Option V × Option GoError) × σ

/-- The struct `service`. -/
structure service (σ V : Type) where
  commentDAO : CommentDAO σ
  videoClient : VideoClient σ V

/-- A call made by a handler on one of its collaborators, with its arguments. -/
inductive Call where
  | ListByVideoID (videoID : String) (limit offset : Int)
  | Create (comment : Comment)
  | Update (comment : Comment)
  | Delete (id : UUID)
  | DeleteByVideoID (videoID : String)
  | GetVideo (req : GetVideoRequest)
  deriving DecidableEq, Repr

/-- What a handler run produces: the response pointer (`none` is `nil`), the
error (`none` is `nil`), the collaborator calls in order (of type `κ`), and the
final world. -/
structure Outcome (κ σ ρ : Type) where
  resp : Option ρ
  err : Option GoError
  calls : List κ
  world : σ

/-! ## Handlers -/

variable {σ V : Type}

/-- Handler `Healthz`. -/
def Healthz (_s : service σ V) (w : σ) : Outcome Call σ HealthzResponse :=
  ⟨some ⟨"ok"⟩, none, [], w⟩

/-- Handler `ListComment`. -/
def ListComment (lib : UUIDLib) (s : service σ V) (req : ListCommentRequest) (w : σ) :
    Outcome Call σ ListCommentResponse :=
  match s.commentDAO.ListByVideoID req.VideoId req.Limit req.Offset w with
  | ((comments, err), w1) =>
    let calls := [Call.ListByVideoID req.VideoId req.Limit req.Offset]
    match err with
    | some e => ⟨none, some e, calls, w1⟩
    | none =>
      let pbComments := comments.foldl (fun acc comment => acc ++ [comment.ToProto lib]) []
      ⟨some ⟨pbComments⟩, none, calls, w1⟩

/-- Handler `CreateComment`. -/
def CreateComment (lib : UUIDLib) (s : service σ V) (req : CreateCommentRequest) (w : σ) :
    Outcome Call σ CreateCommentResponse :=
  match s.videoClient.GetVideo ⟨req.VideoId⟩ w with
  | ((_, err), w1) =>
    match err with
    | some e => ⟨none, some e, [Call.GetVideo ⟨req.VideoId⟩], w1⟩
    | none =>
      let newComment := Comment.zero
      let newComment := { newComment with VideoID := req.VideoId }
      let newComment := { newComment with Content := req.Content }
      match s.commentDAO.Create newComment w1 with
      | ((commentID, err), w2) =>
        let calls := [Call.GetVideo ⟨req.VideoId⟩, Call.Create newComment]
        match err with
        | some e => ⟨none, some e, calls, w2⟩
        | none => ⟨some ⟨lib.ToString commentID⟩, none, calls, w2⟩

/-- Handler `UpdateComment`. -/
def UpdateComment (lib : UUIDLib) (s : service σ V) (req : UpdateCommentRequest) (w : σ) :
    Outcome Call σ UpdateCommentResponse :=
  match lib.Parse req.Id with
  | none => ⟨none, some ErrInvalidUUID, [], w⟩
  | some commentID =>
    let comment : Comment := { Comment.zero with ID := commentID, Content := req.Content }
    match s.commentDAO.Update comment w with
    | ((after, err), w1) =>
      match err with
      | some e =>
        if errorsIs e dao.ErrCommentNotFound then
          ⟨none, some ErrCommentNotFound, [Call.Update comment], w1⟩
        else
          ⟨none, some e, [Call.Update comment], w1⟩
      | none => ⟨some ⟨after.ToProto lib⟩, none, [Call.Update comment], w1⟩

/-- Handler `DeleteComment`. -/
def DeleteComment (lib : UUIDLib) (s : service σ V) (req : DeleteCommentRequest) (w : σ) :
    Outcome Call σ DeleteCommentResponse :=
  match lib.Parse req.Id with
  | none => ⟨none, some ErrInvalidUUID, [], w⟩
  | some commentID =>
    match s.commentDAO.Delete commentID w with
    | (err, w1) =>
      match err with
      | some e =>
        if errorsIs e dao.ErrCommentNotFound then
          ⟨none, some ErrCommentNotFound, [Call.Delete commentID], w1⟩
        else
          ⟨none, some e, [Call.Delete commentID], w1⟩
      | none => ⟨some ⟨⟩, none, [Call.Delete commentID], w1⟩

/-- Handler `DeleteCommentByVideoID`. -/
def DeleteCommentByVideoID (s : service σ V) (req : DeleteCommentByVideoIDRequest) (w : σ) :
    Outcome Call σ DeleteCommentByVideoIDResponse :=
  match s.commentDAO.DeleteByVideoID req.VideoId w with
  | (err, w1) =>
    match err with
    | some e => ⟨none, some e, [Call.DeleteByVideoID req.VideoId], w1⟩
    | none => ⟨some ⟨⟩, none, [Call.DeleteByVideoID req.VideoId], w1⟩

/-! ## Test doubles

Concrete collaborators on which the handlers can be evaluated, in the manner of
the gomock doubles of the test suites. -/

/-- The value of a hexadecimal digit, either case. -/
def hexValue (c : Char) : Option Nat :=
  if 48 ≤ c.toNat ∧ c.toNat ≤ 57 then some (c.toNat - 48)
  else if 97 ≤ c.toNat ∧ c.toNat ≤ 102 then some (c.toNat - 87)
  else if 65 ≤ c.toNat ∧ c.toNat ≤ 70 then some (c.toNat - 55)
  else none

/-- Read a list of hexadecimal digits, most significant first, onto `acc`. -/
def readHex (acc : Nat) : List Char → Option Nat
  | [] => some acc
  | c :: cs =>
    match hexValue c with
    | none => none
    | some d => readHex (16 * acc + d) cs

/-- The lower-case hexadecimal digit of a value below sixteen. -/
def hexChar (d : Nat) : Char :=
  if d < 10 then Char.ofNat (48 + d) else Char.ofNat (87 + d)

/-- The `k` least significant hexadecimal digits of `n`, most significant first. -/
def hexDigits (n : Nat) : Nat → List Char
  | 0 => []
  | k + 1 => hexDigits (n / 16) k ++ [hexChar (n % 16)]

/-- Parsing of the canonical 36-character form
`xxxxxxxx-xxxx-xxxx-xxxx-xxxxxxxxxxxx`, the first of the encodings `uuid.Parse`
accepts. -/
def parseCanonical (s : String) : Option UUID :=
  let cs := s.toList
  if cs.length = 36 ∧ cs.get? 8 = some '-' ∧ cs.get? 13 = some '-' ∧
      cs.get? 18 = some '-' ∧ cs.get? 23 = some '-' then
    (readHex 0 (cs.take 8 ++ (cs.drop 9).take 4 ++ (cs.drop 14).take 4 ++
        (cs.drop 19).take 4 ++ cs.drop 24)).map
      (fun n => (⟨n % 2 ^ 128, Nat.mod_lt n (Nat.two_pow_pos 128)⟩ : UUID))
  else none

/-- Printing in the canonical 36-character lower-case form, as `UUID.String`. -/
def printCanonical (u : UUID) : String :=
  let ds := hexDigits u.val 32
  String.mk (ds.take 8 ++ '-' :: (ds.drop 8).take 4 ++ '-' :: (ds.drop 12).take 4 ++
    '-' :: (ds.drop 16).take 4 ++ '-' :: ds.drop 20)

/-- A uuid library instance restricted to the canonical textual form. -/
def canonicalUUID : UUIDLib := ⟨parseCanonical, printCanonical⟩

/-- A comment DAO double: every method answers with the given fixed results and
counts the call in the world state; `Update` leaves the comment it is handed
untouched. -/
def mockDAO (listed : List Comment) (created : UUID) (err : Option GoError) : CommentDAO Nat :=
  ⟨fun _ _ _ w => ((listed, err), w + 1),
   fun _ w => ((created, err), w + 1),
   fun c w => ((c, err), w + 1),
   fun _ w => (err, w + 1),
   fun _ w => (err, w + 1)⟩

/-- A comment DAO double whose `Update` succeeds and, like a storage driver that
scans the updated row back into its model, writes the stored video id into the
comment it is handed. -/
def rowScanningDAO (storedVideoID : String) : CommentDAO Nat :=
  ⟨fun _ _ _ w => (([], none), w + 1),
   fun _ w => ((0, none), w + 1),
   fun c w => (({ c with VideoID := storedVideoID }, none), w + 1),
   fun _ w => (none, w + 1),
   fun _ w => (none, w + 1)⟩

/-- A video client double answering every lookup with the given error result. -/
def mockVideoClient (err : Option GoError) : VideoClient Nat Unit :=
  ⟨fun _ w => ((if err.isSome then none else some (), err), w + 1)⟩

/-- An error the collaborators know nothing particular about. -/
def errUnknown : GoError := .sentinel "unknown error"

end CommentService

/-! # Video service handlers

Only the test suite of the video service (modules/video/service/service_test.go)
is at hand; the handlers are modelled from the component design of the
specification. -/

namespace VideoService

open CommentService (GoError errorsIs Outcome)

/-- The type `primitive.ObjectID`, a 12-byte array, read as a 96-bit number. -/
abbrev ObjectID := Fin (2 ^ 96)

/-- Modelled from the spec: `dao.ErrVideoNotFound`, the not-found error of the
video data-access layer (package `video/dao` is absent). -/
def dao.ErrVideoNotFound : GoError := .sentinel "video/dao.ErrVideoNotFound"

/-- Modelled from the spec: the service-level not-found error `ErrVideoNotFound`
of the video service (service.go of the video service is absent). -/
def ErrVideoNotFound : GoError := .sentinel "video/service.ErrVideoNotFound"

/-- Modelled from the spec: the dedicated malformed-identifier error of the
video service (service.go of the video service is absent). -/
def ErrInvalidObjectID : GoError := .sentinel "video/service.ErrInvalidObjectID"

/-- The gomega matcher `MatchError` applied to an expected error value: the
actual error equals the expected one or `errors.Is` relates them. -/
def MatchError (actual expected : GoError) : Bool :=
  decide (actual = expected) || errorsIs actual expected

/-- The interface `dao.VideoDAO` as the test suite drives it, over a world state
`σ` and a video record type `Video`: each method returns a domain object or an
error. -/
structure VideoDAO (σ Video : Type) where
  Get : ObjectID → σ → Except GoError Video × σ
  Delete : ObjectID → σ → Option GoError × σ

/-- A call made by a video handler on the video DAO. -/
inductive Call where
  | Get (id : ObjectID)
  | Delete (id : ObjectID)
  deriving DecidableEq, Repr

/-- The message `pb.GetVideoResponse` over a video message type. -/
structure GetVideoResponse (VideoInfo : Type) where
  Video : VideoInfo

/-- The message `pb.DeleteVideoResponse`. -/
structure DeleteVideoResponse where
  deriving DecidableEq, Repr

variable {σ Video VideoInfo : Type}

/-- Modelled from the spec: the handler `GetVideo` of the video service
(service.go of the video service is absent).  It validates the identifier format,
delegates to the data-access layer, translates the not-found error of the
data-access layer into the service-level not-found error, passes every other
error through unchanged and maps the result into the response schema.  The
not-found error is recognised as the test suite produces it, as the value
`dao.ErrVideoNotFound` itself (`err == dao.ErrVideoNotFound`), so that the DAO
errors divide into that value and all others.  `fromHex` stands for
`primitive.ObjectIDFromHex` and `toProto` for `(*dao.Video).ToProto`. -/
def GetVideo (fromHex : String → Option ObjectID) (toProto : Video → VideoInfo)
    (videoDAO : VideoDAO σ Video) (reqId : String) (w : σ) :
    Outcome Call σ (GetVideoResponse VideoInfo) :=
  match fromHex reqId with
  | none => ⟨none, some ErrInvalidObjectID, [], w⟩
  | some id =>
    match videoDAO.Get id w with
    | (.error e, w1) =>
      if e = dao.ErrVideoNotFound then
        ⟨none, some ErrVideoNotFound, [Call.Get id], w1⟩
      else
        ⟨none, some e, [Call.Get id], w1⟩
    | (.ok video, w1) => ⟨some ⟨toProto video⟩, none, [Call.Get id], w1⟩

/-- Modelled from the spec: the handler `DeleteVideo` of the video service
(service.go of the video service is absent), with the same validation and error
translation as `GetVideo` and an empty response on success. -/
def DeleteVideo (fromHex : String → Option ObjectID)
    (videoDAO : VideoDAO σ Video) (reqId : String) (w : σ) :
    Outcome Call σ DeleteVideoResponse :=
  match fromHex reqId with
  | none => ⟨none, some ErrInvalidObjectID, [], w⟩
  | some id =>
    match videoDAO.Delete id w with
    | (some e, w1) =>
      if e = dao.ErrVideoNotFound then
        ⟨none, some ErrVideoNotFound, [Call.Delete id], w1⟩
      else
        ⟨none, some e, [Call.Delete id], w1⟩
    | (none, w1) => ⟨some ⟨⟩, none, [Call.Delete id], w1⟩

/-- Reading of the 24-digit hexadecimal form of an object id, as
`primitive.ObjectIDFromHex`. -/
def fromHex24 (s : String) : Option ObjectID :=
  if s.toList.length = 24 then
    (CommentService.readHex 0 s.toList).map
      (fun n => (⟨n % 2 ^ 96, Nat.mod_lt n (Nat.two_pow_pos 96)⟩ : ObjectID))
  else none

/-- The 24-digit lower-case hexadecimal form of an object id, as `ObjectID.Hex`. -/
def hex24 (id : ObjectID) : String := String.mk (CommentService.hexDigits id.val 24)

/-- A video DAO double over videos named by a string: both methods answer with
the given fixed results and count the call in the world state. -/
def mockVideoDAO (got : Except GoError String) (deleted : Option GoError) : VideoDAO Nat String :=
  ⟨fun _ w => (got, w + 1), fun _ w => (deleted, w + 1)⟩

end VideoService

/-! # Theorems -/

namespace CommentService

variable {σ V : Type}

/-! ## Shared lemmas -/

theorem errorsIs_self (e : GoError) : errorsIs e e = true := by
  cases e <;> simp [errorsIs]

theorem serviceNotFound_not_daoNotFound :
    errorsIs ErrCommentNotFound dao.ErrCommentNotFound = false := by decide

theorem ne_serviceNotFound_of_is {e : GoError}
    (h : errorsIs e dao.ErrCommentNotFound = true) : ErrCommentNotFound ≠ e := by
  intro heq
  rw [← heq, serviceNotFound_not_daoNotFound] at h
  exact Bool.false_ne_true h

theorem UpdateComment_parse_none (lib : UUIDLib) (s : service σ V) (req : UpdateCommentRequest)
    (w : σ) (h : lib.Parse req.Id = none) :
    UpdateComment lib s req w = ⟨none, some ErrInvalidUUID, [], w⟩ := by
  simp [UpdateComment, h]

theorem DeleteComment_parse_none (lib : UUIDLib) (s : service σ V) (req : DeleteCommentRequest)
    (w : σ) (h : lib.Parse req.Id = none) :
    DeleteComment lib s req w = ⟨none, some ErrInvalidUUID, [], w⟩ := by
  simp [DeleteComment, h]

theorem UpdateComment_parse_some (lib : UUIDLib) (s : service σ V) (req : UpdateCommentRequest)
    (w : σ) (u : UUID) (h : lib.Parse req.Id = some u) :
    UpdateComment lib s req w =
      match (s.commentDAO.Update ⟨u, "", req.Content⟩ w).1.2 with
      | some e =>
        if errorsIs e dao.ErrCommentNotFound then
          ⟨none, some ErrCommentNotFound, [Call.Update ⟨u, "", req.Content⟩],
            (s.commentDAO.Update ⟨u, "", req.Content⟩ w).2⟩
        else
          ⟨none, some e, [Call.Update ⟨u, "", req.Content⟩],
            (s.commentDAO.Update ⟨u, "", req.Content⟩ w).2⟩
      | none =>
        ⟨some ⟨(s.commentDAO.Update ⟨u, "", req.Content⟩ w).1.1.ToProto lib⟩, none,
          [Call.Update ⟨u, "", req.Content⟩], (s.commentDAO.Update ⟨u, "", req.Content⟩ w).2⟩ := by
  simp only [UpdateComment, h, Comment.zero]

theorem DeleteComment_parse_some (lib : UUIDLib) (s : service σ V) (req : DeleteCommentRequest)
    (w : σ) (u : UUID) (h : lib.Parse req.Id = some u) :
    DeleteComment lib s req w =
      match (s.commentDAO.Delete u w).1 with
      | some e =>
        if errorsIs e dao.ErrCommentNotFound then
          ⟨none, some ErrCommentNotFound, [Call.Delete u], (s.commentDAO.Delete u w).2⟩
        else
          ⟨none, some e, [Call.Delete u], (s.commentDAO.Delete u w).2⟩
      | none => ⟨some ⟨⟩, none, [Call.Delete u], (s.commentDAO.Delete u w).2⟩ := by
  simp only [DeleteComment, h]

theorem CreateComment_eq (lib : UUIDLib) (s : service σ V) (req : CreateCommentRequest) (w : σ) :
    CreateComment lib s req w =
      match (s.videoClient.GetVideo ⟨req.VideoId⟩ w).1.2 with
      | some e =>
        ⟨none, some e, [Call.GetVideo ⟨req.VideoId⟩], (s.videoClient.GetVideo ⟨req.VideoId⟩ w).2⟩
      | none =>
        match (s.commentDAO.Create ⟨0, req.VideoId, req.Content⟩
            (s.videoClient.GetVideo ⟨req.VideoId⟩ w).2).1.2 with
        | some e =>
          ⟨none, some e, [Call.GetVideo ⟨req.VideoId⟩, Call.Create ⟨0, req.VideoId, req.Content⟩],
            (s.commentDAO.Create ⟨0, req.VideoId, req.Content⟩
              (s.videoClient.GetVideo ⟨req.VideoId⟩ w).2).2⟩
        | none =>
          ⟨some ⟨lib.ToString (s.commentDAO.Create ⟨0, req.VideoId, req.Content⟩
              (s.videoClient.GetVideo ⟨req.VideoId⟩ w).2).1.1⟩, none,
            [Call.GetVideo ⟨req.VideoId⟩, Call.Create ⟨0, req.VideoId, req.Content⟩],
            (s.commentDAO.Create ⟨0, req.VideoId, req.Content⟩
              (s.videoClient.GetVideo ⟨req.VideoId⟩ w).2).2⟩ := by
  simp only [CreateComment, Comment.zero]

theorem ListComment_eq (lib : UUIDLib) (s : service σ V) (req : ListCommentRequest) (w : σ) :
    ListComment lib s req w =
      match (s.commentDAO.ListByVideoID req.VideoId req.Limit req.Offset w).1.2 with
      | some e =>
        ⟨none, some e, [Call.ListByVideoID req.VideoId req.Limit req.Offset],
          (s.commentDAO.ListByVideoID req.VideoId req.Limit req.Offset w).2⟩
      | none =>
        ⟨some ⟨(s.commentDAO.ListByVideoID req.VideoId req.Limit req.Offset w).1.1.foldl
            (fun acc comment => acc ++ [comment.ToProto lib]) []⟩, none,
          [Call.ListByVideoID req.VideoId req.Limit req.Offset],
          (s.commentDAO.ListByVideoID req.VideoId req.Limit req.Offset w).2⟩ := by
  simp only [ListComment]

theorem DeleteCommentByVideoID_eq (s : service σ V) (req : DeleteCommentByVideoIDRequest) (w : σ) :
    DeleteCommentByVideoID s req w =
      match (s.commentDAO.DeleteByVideoID req.VideoId w).1 with
      | some e =>
        ⟨none, some e, [Call.DeleteByVideoID req.VideoId],
          (s.commentDAO.DeleteByVideoID req.VideoId w).2⟩
      | none =>
        ⟨some ⟨⟩, none, [Call.DeleteByVideoID req.VideoId],
          (s.commentDAO.DeleteByVideoID req.VideoId w).2⟩ := by
  simp only [DeleteCommentByVideoID]

theorem foldl_append_singleton {α β : Type} (f : α → β) (l : List α) (acc : List β) :
    l.foldl (fun acc a => acc ++ [f a]) acc = acc ++ l.map f := by
  induction l generalizing acc with
  | nil => simp
  | cons a l ih => simp [ih]

/-! ## Malformed identifiers in UpdateComment and DeleteComment -/

/-- C1: when uuid.Parse rejects the id of the request, UpdateComment and
DeleteComment each return a nil response together with ErrInvalidUUID, make no
call on any collaborator (neither Update nor Delete is invoked) and leave the
world as it was, whatever the comment DAO would do. -/
theorem C1_malformed_id_rejected_without_dao_call (lib : UUIDLib) (s : service σ V) (w : σ)
    (id content : String) (h : lib.Parse id = none) :
    UpdateComment lib s ⟨id, content⟩ w = ⟨none, some ErrInvalidUUID, [], w⟩ ∧
    DeleteComment lib s ⟨id⟩ w = ⟨none, some ErrInvalidUUID, [], w⟩ :=
  ⟨UpdateComment_parse_none lib s ⟨id, content⟩ w h, DeleteComment_parse_none lib s ⟨id⟩ w h⟩

theorem C1_malformed_id_rejected_witness :
    canonicalUUID.Parse "not-a-uuid" = none ∧
    UpdateComment canonicalUUID ⟨mockDAO [] 7 none, mockVideoClient none⟩
      ⟨"not-a-uuid", "hello"⟩ 0 = ⟨none, some ErrInvalidUUID, [], 0⟩ ∧
    DeleteComment canonicalUUID ⟨mockDAO [] 7 none, mockVideoClient none⟩
      ⟨"not-a-uuid"⟩ 0 = ⟨none, some ErrInvalidUUID, [], 0⟩ :=
  ⟨by decide,
   C1_malformed_id_rejected_without_dao_call canonicalUUID
     ⟨mockDAO [] 7 none, mockVideoClient none⟩ 0 "not-a-uuid" "hello" (by decide)⟩

/-! ## CreateComment -/

/-- C2: if the video client's GetVideo call for the video id of the request
returns an error e, CreateComment returns a nil response and exactly e, its only
collaborator call is that lookup (the DAO's Create is not invoked) and the world
is the one the lookup left; and on every run, Create appears among the calls
only if the lookup returned no error. -/
theorem C2_create_fails_without_persisting_on_lookup_error (lib : UUIDLib) (s : service σ V)
    (req : CreateCommentRequest) (w : σ) :
    (∀ r e w1, s.videoClient.GetVideo ⟨req.VideoId⟩ w = ((r, some e), w1) →
      CreateComment lib s req w = ⟨none, some e, [Call.GetVideo ⟨req.VideoId⟩], w1⟩ ∧
      ∀ c, Call.Create c ∉ (CreateComment lib s req w).calls) ∧
    (∀ c, Call.Create c ∈ (CreateComment lib s req w).calls →
      (s.videoClient.GetVideo ⟨req.VideoId⟩ w).1.2 = none) := by
  refine ⟨?_, ?_⟩
  · intro r e w1 hv
    have h : CreateComment lib s req w = ⟨none, some e, [Call.GetVideo ⟨req.VideoId⟩], w1⟩ := by
      rw [CreateComment_eq, hv]
    refine ⟨h, ?_⟩
    intro c hc
    rw [h] at hc
    simp at hc
  · intro c hc
    rw [CreateComment_eq] at hc
    cases hv : (s.videoClient.GetVideo ⟨req.VideoId⟩ w).1.2 with
    | none => rfl
    | some e =>
      rw [hv] at hc
      simp at hc

theorem C2_create_fails_witness :
    (CreateComment canonicalUUID ⟨mockDAO [] 7 none, mockVideoClient (some errUnknown)⟩
        ⟨"v1", "hello"⟩ 0 = ⟨none, some errUnknown, [Call.GetVideo ⟨"v1"⟩], 1⟩ ∧
      ∀ c, Call.Create c ∉ (CreateComment canonicalUUID
        ⟨mockDAO [] 7 none, mockVideoClient (some errUnknown)⟩ ⟨"v1", "hello"⟩ 0).calls) ∧
    ((mockVideoClient none).GetVideo ⟨"v1"⟩ 0).1.2 = none :=
  ⟨(C2_create_fails_without_persisting_on_lookup_error canonicalUUID
      ⟨mockDAO [] 7 none, mockVideoClient (some errUnknown)⟩ ⟨"v1", "hello"⟩ 0).1
      none errUnknown 1 rfl,
   (C2_create_fails_without_persisting_on_lookup_error canonicalUUID
      ⟨mockDAO [] 7 none, mockVideoClient none⟩ ⟨"v1", "hello"⟩ 0).2
      ⟨0, "v1", "hello"⟩ (by decide)⟩

/-- C4: when the video lookup succeeds and the DAO's Create returns identifier u
with no error, CreateComment returns a nil error and a response whose Id is
u.String(); the comment handed to Create has the video id and content of the
request and the zero ID (uuid.Nil), so no identifier chosen by the caller. -/
theorem C4_create_returns_stored_identifier (lib : UUIDLib) (s : service σ V)
    (req : CreateCommentRequest) (w w1 w2 : σ) (r : Option V) (u : UUID)
    (hv : s.videoClient.GetVideo ⟨req.VideoId⟩ w = ((r, none), w1))
    (hc : s.commentDAO.Create ⟨0, req.VideoId, req.Content⟩ w1 = ((u, none), w2)) :
    CreateComment lib s req w =
      ⟨some ⟨lib.ToString u⟩, none,
        [Call.GetVideo ⟨req.VideoId⟩, Call.Create ⟨0, req.VideoId, req.Content⟩], w2⟩ ∧
    ∀ c, Call.Create c ∈ (CreateComment lib s req w).calls →
      c.ID = 0 ∧ c.VideoID = req.VideoId ∧ c.Content = req.Content := by
  have h : CreateComment lib s req w =
      ⟨some ⟨lib.ToString u⟩, none,
        [Call.GetVideo ⟨req.VideoId⟩, Call.Create ⟨0, req.VideoId, req.Content⟩], w2⟩ := by
    rw [CreateComment_eq, hv]
    simp only [hc]
  refine ⟨h, ?_⟩
  intro c hmem
  rw [h] at hmem
  simp at hmem
  subst hmem
  exact ⟨rfl, rfl, rfl⟩

theorem C4_create_returns_stored_identifier_witness :
    CreateComment canonicalUUID ⟨mockDAO [] 42 none, mockVideoClient none⟩ ⟨"v1", "hello"⟩ 0 =
      ⟨some ⟨"00000000-0000-0000-0000-00000000002a"⟩, none,
        [Call.GetVideo ⟨"v1"⟩, Call.Create ⟨0, "v1", "hello"⟩], 2⟩ :=
  (C4_create_returns_stored_identifier canonicalUUID ⟨mockDAO [] 42 none, mockVideoClient none⟩
    ⟨"v1", "hello"⟩ 0 1 2 (some ()) 42 rfl rfl).1

/-! ## Error translation and propagation -/

/-- C3: for a request whose id parses as UUID u, if the DAO's Update (for
UpdateComment) or Delete (for DeleteComment) returns an error e that is or wraps
dao.ErrCommentNotFound, the handler returns a nil response and the service-level
ErrCommentNotFound, which is a different value from the DAO's error e. -/
theorem C3_dao_not_found_translated (lib : UUIDLib) (s : service σ V) (w : σ)
    (id content : String) (u : UUID) (e : GoError)
    (hp : lib.Parse id = some u) (hnf : errorsIs e dao.ErrCommentNotFound = true) :
    (∀ after w1, s.commentDAO.Update ⟨u, "", content⟩ w = ((after, some e), w1) →
      UpdateComment lib s ⟨id, content⟩ w =
        ⟨none, some ErrCommentNotFound, [Call.Update ⟨u, "", content⟩], w1⟩) ∧
    (∀ w1, s.commentDAO.Delete u w = (some e, w1) →
      DeleteComment lib s ⟨id⟩ w = ⟨none, some ErrCommentNotFound, [Call.Delete u], w1⟩) ∧
    ErrCommentNotFound ≠ e := by
  refine ⟨?_, ?_, ne_serviceNotFound_of_is hnf⟩
  · intro after w1 hu
    rw [UpdateComment_parse_some lib s ⟨id, content⟩ w u hp]
    simp only [hu, hnf, if_true]
  · intro w1 hd
    rw [DeleteComment_parse_some lib s ⟨id⟩ w u hp]
    simp only [hd, hnf, if_true]

theorem C3_dao_not_found_translated_witness :
    UpdateComment canonicalUUID
        ⟨mockDAO [] 7 (some (.wrap "update" dao.ErrCommentNotFound)), mockVideoClient none⟩
        ⟨"00000000-0000-0000-0000-00000000002a", "hello"⟩ 0 =
      ⟨none, some ErrCommentNotFound, [Call.Update ⟨42, "", "hello"⟩], 1⟩ ∧
    DeleteComment canonicalUUID
        ⟨mockDAO [] 7 (some (.wrap "update" dao.ErrCommentNotFound)), mockVideoClient none⟩
        ⟨"00000000-0000-0000-0000-00000000002a"⟩ 0 =
      ⟨none, some ErrCommentNotFound, [Call.Delete 42], 1⟩ ∧
    ErrCommentNotFound ≠ GoError.wrap "update" dao.ErrCommentNotFound :=
  have h := C3_dao_not_found_translated canonicalUUID
    ⟨mockDAO [] 7 (some (.wrap "update" dao.ErrCommentNotFound)), mockVideoClient none⟩ 0
    "00000000-0000-0000-0000-00000000002a" "hello" 42 (.wrap "update" dao.ErrCommentNotFound)
    (by decide) (by decide)
  ⟨h.1 _ 1 rfl, h.2.1 1 rfl, h.2.2⟩

/-- C5: a DAO error e that neither is nor wraps dao.ErrCommentNotFound comes
back from each of ListComment, CreateComment (after a successful lookup),
UpdateComment and DeleteComment (for an id that parses) and
DeleteCommentByVideoID as a nil response and the identical error value e, after
exactly one call of the DAO method. -/
theorem C5_unknown_dao_error_passed_through (lib : UUIDLib) (s : service σ V) (w : σ)
    (e : GoError) (hne : errorsIs e dao.ErrCommentNotFound = false) :
    (∀ req cs w1,
      s.commentDAO.ListByVideoID req.VideoId req.Limit req.Offset w = ((cs, some e), w1) →
      ListComment lib s req w =
        ⟨none, some e, [Call.ListByVideoID req.VideoId req.Limit req.Offset], w1⟩) ∧
    (∀ req r w0 u w1, s.videoClient.GetVideo ⟨req.VideoId⟩ w = ((r, none), w0) →
      s.commentDAO.Create ⟨0, req.VideoId, req.Content⟩ w0 = ((u, some e), w1) →
      CreateComment lib s req w =
        ⟨none, some e,
          [Call.GetVideo ⟨req.VideoId⟩, Call.Create ⟨0, req.VideoId, req.Content⟩], w1⟩) ∧
    (∀ id content u after w1, lib.Parse id = some u →
      s.commentDAO.Update ⟨u, "", content⟩ w = ((after, some e), w1) →
      UpdateComment lib s ⟨id, content⟩ w = ⟨none, some e, [Call.Update ⟨u, "", content⟩], w1⟩) ∧
    (∀ id u w1, lib.Parse id = some u → s.commentDAO.Delete u w = (some e, w1) →
      DeleteComment lib s ⟨id⟩ w = ⟨none, some e, [Call.Delete u], w1⟩) ∧
    (∀ req w1, s.commentDAO.DeleteByVideoID req.VideoId w = (some e, w1) →
      DeleteCommentByVideoID s req w = ⟨none, some e, [Call.DeleteByVideoID req.VideoId], w1⟩) := by
  refine ⟨?_, ?_, ?_, ?_, ?_⟩
  · intro req cs w1 h
    rw [ListComment_eq, h]
  · intro req r w0 u w1 hv hc
    rw [CreateComment_eq, hv]
    simp only [hc]
  · intro id content u after w1 hp hu
    rw [UpdateComment_parse_some lib s ⟨id, content⟩ w u hp]
    simp [hu, hne]
  · intro id u w1 hp hd
    rw [DeleteComment_parse_some lib s ⟨id⟩ w u hp]
    simp [hd, hne]
  · intro req w1 h
    rw [DeleteCommentByVideoID_eq, h]

theorem C5_unknown_dao_error_passed_through_witness :
    ListComment canonicalUUID ⟨mockDAO [] 7 (some errUnknown), mockVideoClient none⟩
        ⟨"v1", 10, 0⟩ 0 = ⟨none, some errUnknown, [Call.ListByVideoID "v1" 10 0], 1⟩ ∧
    CreateComment canonicalUUID ⟨mockDAO [] 7 (some errUnknown), mockVideoClient none⟩
        ⟨"v1", "hello"⟩ 0 =
      ⟨none, some errUnknown, [Call.GetVideo ⟨"v1"⟩, Call.Create ⟨0, "v1", "hello"⟩], 2⟩ ∧
    UpdateComment canonicalUUID ⟨mockDAO [] 7 (some errUnknown), mockVideoClient none⟩
        ⟨"00000000-0000-0000-0000-00000000002a", "hello"⟩ 0 =
      ⟨none, some errUnknown, [Call.Update ⟨42, "", "hello"⟩], 1⟩ ∧
    DeleteComment canonicalUUID ⟨mockDAO [] 7 (some errUnknown), mockVideoClient none⟩
        ⟨"00000000-0000-0000-0000-00000000002a"⟩ 0 =
      ⟨none, some errUnknown, [Call.Delete 42], 1⟩ ∧
    DeleteCommentByVideoID ⟨mockDAO [] 7 (some errUnknown), mockVideoClient none⟩ ⟨"v1"⟩ 0 =
      ⟨none, some errUnknown, [Call.DeleteByVideoID "v1"], 1⟩ :=
  have h := C5_unknown_dao_error_passed_through canonicalUUID
    ⟨mockDAO [] 7 (some errUnknown), mockVideoClient none⟩ 0 errUnknown (by decide)
  ⟨h.1 ⟨"v1", 10, 0⟩ [] 1 rfl,
   h.2.1 ⟨"v1", "hello"⟩ (some ()) 1 7 2 rfl rfl,
   h.2.2.1 "00000000-0000-0000-0000-00000000002a" "hello" 42 _ 1 (by decide) rfl,
   h.2.2.2.1 "00000000-0000-0000-0000-00000000002a" 42 1 (by decide) rfl,
   h.2.2.2.2 ⟨"v1"⟩ 1 rfl⟩

/-! ## ListComment -/

/-- C7: ListComment calls the DAO's ListByVideoID exactly once, with the video
id, limit and offset of the request unchanged; when that call returns the list
cs with no error, ListComment returns a nil error and a response whose Comments
has the length of cs and whose i-th element is cs[i].ToProto() for every i, and
is empty when cs is empty. -/
theorem C7_list_maps_comments_in_order (lib : UUIDLib) (s : service σ V)
    (req : ListCommentRequest) (w : σ) :
    (ListComment lib s req w).calls = [Call.ListByVideoID req.VideoId req.Limit req.Offset] ∧
    ∀ cs w1, s.commentDAO.ListByVideoID req.VideoId req.Limit req.Offset w = ((cs, none), w1) →
      ∃ resp : ListCommentResponse,
        ListComment lib s req w =
          ⟨some resp, none, [Call.ListByVideoID req.VideoId req.Limit req.Offset], w1⟩ ∧
        resp.Comments.length = cs.length ∧
        (∀ i (h : i < cs.length), resp.Comments[i]? = some ((cs.get ⟨i, h⟩).ToProto lib)) ∧
        (cs = [] → resp.Comments = []) := by
  refine ⟨?_, ?_⟩
  · rw [ListComment_eq]
    cases (s.commentDAO.ListByVideoID req.VideoId req.Limit req.Offset w).1.2 <;> rfl
  · intro cs w1 h
    refine ⟨⟨cs.map (Comment.ToProto lib)⟩, ?_, ?_, ?_, ?_⟩
    · rw [ListComment_eq, h]
      simp only [foldl_append_singleton, List.nil_append]
    · simp
    · intro i hi
      simp [List.getElem?_eq_getElem hi]
    · intro hnil
      simp [hnil]

theorem C7_list_maps_comments_in_order_witness :
    ∃ resp : ListCommentResponse,
      ListComment canonicalUUID
          ⟨mockDAO [⟨1, "v1", "first"⟩, ⟨2, "v1", "second"⟩] 7 none, mockVideoClient none⟩
          ⟨"v1", 10, 0⟩ 0 =
        ⟨some resp, none, [Call.ListByVideoID "v1" 10 0], 1⟩ ∧
      resp.Comments.length = [(⟨1, "v1", "first"⟩ : Comment), ⟨2, "v1", "second"⟩].length ∧
      (∀ i (h : i < [(⟨1, "v1", "first"⟩ : Comment), ⟨2, "v1", "second"⟩].length),
        resp.Comments[i]? =
          some (([(⟨1, "v1", "first"⟩ : Comment), ⟨2, "v1", "second"⟩].get ⟨i, h⟩).ToProto
            canonicalUUID)) ∧
      ([(⟨1, "v1", "first"⟩ : Comment), ⟨2, "v1", "second"⟩] = [] → resp.Comments = []) :=
  (C7_list_maps_comments_in_order canonicalUUID
    ⟨mockDAO [⟨1, "v1", "first"⟩, ⟨2, "v1", "second"⟩] 7 none, mockVideoClient none⟩
    ⟨"v1", 10, 0⟩ 0).2 _ 1 rfl

/-! ## UpdateComment -/

/-- C9, as the claim states it, fails: with a DAO whose Update succeeds and
writes the stored video id into the comment it was handed, the response of
UpdateComment carries that stored video id, so it is not the ToProto() of the
comment built from the id and content of the request alone. -/
theorem C9_response_can_carry_stored_fields :
    canonicalUUID.Parse "00000000-0000-0000-0000-00000000002a" = some 42 ∧
    ((rowScanningDAO "v-stored").Update ⟨42, "", "hello"⟩ 0).1.2 = none ∧
    (UpdateComment canonicalUUID ⟨rowScanningDAO "v-stored", mockVideoClient none⟩
        ⟨"00000000-0000-0000-0000-00000000002a", "hello"⟩ 0).resp =
      some ⟨⟨"00000000-0000-0000-0000-00000000002a", "v-stored", "hello"⟩⟩ ∧
    (UpdateComment canonicalUUID ⟨rowScanningDAO "v-stored", mockVideoClient none⟩
        ⟨"00000000-0000-0000-0000-00000000002a", "hello"⟩ 0).resp ≠
      some ⟨Comment.ToProto canonicalUUID ⟨42, "", "hello"⟩⟩ := by
  decide

/-- C9, amended: for a request whose id parses as UUID u, the comment passed to
the DAO's Update has ID u, the content of the request and a zero VideoID; when
Update returns no error, the response's comment is the ToProto() of that same
comment object as Update left it, hence, whenever Update left it unchanged, the
ToProto() of the comment built from the id and content of the request alone. -/
theorem C9_update_passes_id_and_content_only (lib : UUIDLib) (s : service σ V) (w : σ)
    (id content : String) (u : UUID) (hp : lib.Parse id = some u) :
    (UpdateComment lib s ⟨id, content⟩ w).calls = [Call.Update ⟨u, "", content⟩] ∧
    ∀ after w1, s.commentDAO.Update ⟨u, "", content⟩ w = ((after, none), w1) →
      UpdateComment lib s ⟨id, content⟩ w =
        ⟨some ⟨after.ToProto lib⟩, none, [Call.Update ⟨u, "", content⟩], w1⟩ ∧
      (after = ⟨u, "", content⟩ →
        (UpdateComment lib s ⟨id, content⟩ w).resp =
          some ⟨Comment.ToProto lib ⟨u, "", content⟩⟩) := by
  have hEq := UpdateComment_parse_some lib s ⟨id, content⟩ w u hp
  refine ⟨?_, ?_⟩
  · rw [hEq]
    cases (s.commentDAO.Update ⟨u, "", content⟩ w).1.2 with
    | none => rfl
    | some e => by_cases hb : errorsIs e dao.ErrCommentNotFound = true <;> simp [hb]
  · intro after w1 hu
    have h : UpdateComment lib s ⟨id, content⟩ w =
        ⟨some ⟨after.ToProto lib⟩, none, [Call.Update ⟨u, "", content⟩], w1⟩ := by
      rw [hEq]
      simp only [hu]
    refine ⟨h, ?_⟩
    intro hafter
    rw [h, hafter]

theorem C9_update_passes_id_and_content_only_witness :
    UpdateComment canonicalUUID ⟨mockDAO [] 7 none, mockVideoClient none⟩
        ⟨"00000000-0000-0000-0000-00000000002a", "hello"⟩ 0 =
      ⟨some ⟨Comment.ToProto canonicalUUID ⟨42, "", "hello"⟩⟩, none,
        [Call.Update ⟨42, "", "hello"⟩], 1⟩ :=
  ((C9_update_passes_id_and_content_only canonicalUUID
    ⟨mockDAO [] 7 none, mockVideoClient none⟩ 0
    "00000000-0000-0000-0000-00000000002a" "hello" 42 (by decide)).2 ⟨42, "", "hello"⟩ 1 rfl).1

/-! ## Identifier validation across the handlers -/

/-- C6, as the claim states it, fails: for an identifier that neither uuid.Parse
nor the object-id reader accepts, ListComment, DeleteCommentByVideoID and
CreateComment return no error at all and do call the DAO with it. -/
theorem C6_video_id_not_validated :
    canonicalUUID.Parse "not-an-id" = none ∧
    VideoService.fromHex24 "not-an-id" = none ∧
    (ListComment canonicalUUID ⟨mockDAO [] 7 none, mockVideoClient none⟩
      ⟨"not-an-id", 10, 0⟩ 0).err = none ∧
    (ListComment canonicalUUID ⟨mockDAO [] 7 none, mockVideoClient none⟩
      ⟨"not-an-id", 10, 0⟩ 0).calls = [Call.ListByVideoID "not-an-id" 10 0] ∧
    (DeleteCommentByVideoID ⟨mockDAO [] 7 none, mockVideoClient none⟩ ⟨"not-an-id"⟩ 0).err
      = none ∧
    (DeleteCommentByVideoID ⟨mockDAO [] 7 none, mockVideoClient none⟩ ⟨"not-an-id"⟩ 0).calls
      = [Call.DeleteByVideoID "not-an-id"] ∧
    (CreateComment canonicalUUID ⟨mockDAO [] 7 none, mockVideoClient none⟩
      ⟨"not-an-id", "hello"⟩ 0).err = none ∧
    (CreateComment canonicalUUID ⟨mockDAO [] 7 none, mockVideoClient none⟩
      ⟨"not-an-id", "hello"⟩ 0).calls =
      [Call.GetVideo ⟨"not-an-id"⟩, Call.Create ⟨0, "not-an-id", "hello"⟩] := by
  decide

/-- C6, amended: of the handlers that take an identifier, UpdateComment and
DeleteComment validate its format with uuid.Parse and, for a malformed one,
return ErrInvalidUUID without calling the DAO.  ListComment and
DeleteCommentByVideoID perform no format check and always hand the video id of
the request to the DAO unchanged; CreateComment performs no format check of its
own, always hands the video id to the video client's GetVideo first, and calls
the DAO's Create exactly when that lookup returns no error. -/
theorem C6_validation_only_in_update_and_delete (lib : UUIDLib) (s : service σ V) (w : σ) :
    (∀ id content, lib.Parse id = none →
      (UpdateComment lib s ⟨id, content⟩ w).err = some ErrInvalidUUID ∧
      (UpdateComment lib s ⟨id, content⟩ w).resp = none ∧
      (UpdateComment lib s ⟨id, content⟩ w).calls = []) ∧
    (∀ id, lib.Parse id = none →
      (DeleteComment lib s ⟨id⟩ w).err = some ErrInvalidUUID ∧
      (DeleteComment lib s ⟨id⟩ w).resp = none ∧
      (DeleteComment lib s ⟨id⟩ w).calls = []) ∧
    (∀ req, (ListComment lib s req w).calls =
      [Call.ListByVideoID req.VideoId req.Limit req.Offset]) ∧
    (∀ req, (DeleteCommentByVideoID s req w).calls = [Call.DeleteByVideoID req.VideoId]) ∧
    (∀ req, (CreateComment lib s req w).calls.head? = some (Call.GetVideo ⟨req.VideoId⟩) ∧
      ((∃ c, Call.Create c ∈ (CreateComment lib s req w).calls) ↔
        (s.videoClient.GetVideo ⟨req.VideoId⟩ w).1.2 = none)) := by
  refine ⟨?_, ?_, ?_, ?_, ?_⟩
  · intro id content h
    rw [UpdateComment_parse_none lib s ⟨id, content⟩ w h]
    exact ⟨rfl, rfl, rfl⟩
  · intro id h
    rw [DeleteComment_parse_none lib s ⟨id⟩ w h]
    exact ⟨rfl, rfl, rfl⟩
  · intro req
    rw [ListComment_eq]
    cases (s.commentDAO.ListByVideoID req.VideoId req.Limit req.Offset w).1.2 <;> rfl
  · intro req
    rw [DeleteCommentByVideoID_eq]
    cases (s.commentDAO.DeleteByVideoID req.VideoId w).1 <;> rfl
  · intro req
    rw [CreateComment_eq]
    cases (s.videoClient.GetVideo ⟨req.VideoId⟩ w).1.2 with
    | some e => simp
    | none =>
      cases (s.commentDAO.Create ⟨0, req.VideoId, req.Content⟩
        (s.videoClient.GetVideo ⟨req.VideoId⟩ w).2).1.2 <;> simp

theorem C6_validation_only_in_update_and_delete_witness :
    ((UpdateComment canonicalUUID ⟨mockDAO [] 7 none, mockVideoClient none⟩
        ⟨"not-an-id", "hello"⟩ 0).err = some ErrInvalidUUID ∧
      (UpdateComment canonicalUUID ⟨mockDAO [] 7 none, mockVideoClient none⟩
        ⟨"not-an-id", "hello"⟩ 0).resp = none ∧
      (UpdateComment canonicalUUID ⟨mockDAO [] 7 none, mockVideoClient none⟩
        ⟨"not-an-id", "hello"⟩ 0).calls = []) ∧
    ((DeleteComment canonicalUUID ⟨mockDAO [] 7 none, mockVideoClient none⟩
        ⟨"not-an-id"⟩ 0).err = some ErrInvalidUUID ∧
      (DeleteComment canonicalUUID ⟨mockDAO [] 7 none, mockVideoClient none⟩
        ⟨"not-an-id"⟩ 0).resp = none ∧
      (DeleteComment canonicalUUID ⟨mockDAO [] 7 none, mockVideoClient none⟩
        ⟨"not-an-id"⟩ 0).calls = []) :=
  have h := C6_validation_only_in_update_and_delete canonicalUUID
    ⟨mockDAO [] 7 none, mockVideoClient none⟩ 0
  ⟨h.1 "not-an-id" "hello" (by decide), h.2.1 "not-an-id" (by decide)⟩

/-! ## Nil response exactly on error -/

/-- C10: for every comment-service handler, every request and every behaviour of
the DAO and the video client, the response is nil if and only if the returned
error is non-nil; Healthz returns status "ok" with a nil error and calls no
collaborator. -/
theorem C10_response_nil_iff_error (lib : UUIDLib) (s : service σ V) (w : σ) :
    Healthz s w = ⟨some ⟨"ok"⟩, none, [], w⟩ ∧
    ((Healthz s w).resp = none ↔ (Healthz s w).err ≠ none) ∧
    (∀ req, (ListComment lib s req w).resp = none ↔ (ListComment lib s req w).err ≠ none) ∧
    (∀ req, (CreateComment lib s req w).resp = none ↔ (CreateComment lib s req w).err ≠ none) ∧
    (∀ req, (UpdateComment lib s req w).resp = none ↔ (UpdateComment lib s req w).err ≠ none) ∧
    (∀ req, (DeleteComment lib s req w).resp = none ↔ (DeleteComment lib s req w).err ≠ none) ∧
    (∀ req, (DeleteCommentByVideoID s req w).resp = none ↔
      (DeleteCommentByVideoID s req w).err ≠ none) := by
  refine ⟨rfl, by simp [Healthz], ?_, ?_, ?_, ?_, ?_⟩
  · intro req
    rw [ListComment_eq]
    cases (s.commentDAO.ListByVideoID req.VideoId req.Limit req.Offset w).1.2 <;> simp
  · intro req
    rw [CreateComment_eq]
    cases (s.videoClient.GetVideo ⟨req.VideoId⟩ w).1.2 with
    | some e => simp
    | none =>
      cases (s.commentDAO.Create ⟨0, req.VideoId, req.Content⟩
        (s.videoClient.GetVideo ⟨req.VideoId⟩ w).2).1.2 <;> simp
  · intro req
    cases hp : lib.Parse req.Id with
    | none => rw [UpdateComment_parse_none lib s req w hp]; simp
    | some u =>
      rw [UpdateComment_parse_some lib s req w u hp]
      cases (s.commentDAO.Update ⟨u, "", req.Content⟩ w).1.2 with
      | none => simp
      | some e => by_cases hb : errorsIs e dao.ErrCommentNotFound = true <;> simp [hb]
  · intro req
    cases hp : lib.Parse req.Id with
    | none => rw [DeleteComment_parse_none lib s req w hp]; simp
    | some u =>
      rw [DeleteComment_parse_some lib s req w u hp]
      cases (s.commentDAO.Delete u w).1 with
      | none => simp
      | some e => by_cases hb : errorsIs e dao.ErrCommentNotFound = true <;> simp [hb]
  · intro req
    rw [DeleteCommentByVideoID_eq]
    cases (s.commentDAO.DeleteByVideoID req.VideoId w).1 <;> simp

end CommentService

namespace VideoService

open CommentService (GoError errorsIs errorsIs_self Outcome)

variable {σ Video VideoInfo : Type}

theorem MatchError_self (e : GoError) : MatchError e e = true := by
  simp [MatchError]

theorem GetVideo_parsed (fromHex : String → Option ObjectID) (toProto : Video → VideoInfo)
    (videoDAO : VideoDAO σ Video) (reqId : String) (w : σ) (id : ObjectID)
    (hid : fromHex reqId = some id) :
    GetVideo fromHex toProto videoDAO reqId w =
      match videoDAO.Get id w with
      | (.error e, w1) =>
        if e = dao.ErrVideoNotFound then
          ⟨none, some ErrVideoNotFound, [Call.Get id], w1⟩
        else
          ⟨none, some e, [Call.Get id], w1⟩
      | (.ok video, w1) => ⟨some ⟨toProto video⟩, none, [Call.Get id], w1⟩ := by
  simp only [GetVideo, hid]

theorem DeleteVideo_parsed (fromHex : String → Option ObjectID)
    (videoDAO : VideoDAO σ Video) (reqId : String) (w : σ) (id : ObjectID)
    (hid : fromHex reqId = some id) :
    DeleteVideo fromHex videoDAO reqId w =
      match videoDAO.Delete id w with
      | (some e, w1) =>
        if e = dao.ErrVideoNotFound then
          ⟨none, some ErrVideoNotFound, [Call.Delete id], w1⟩
        else
          ⟨none, some e, [Call.Delete id], w1⟩
      | (none, w1) => ⟨some ⟨⟩, none, [Call.Delete id], w1⟩ := by
  simp only [DeleteVideo, hid]

/-- C8: in the video service, for a request whose id is the hex form of the
object id `id`, GetVideo and DeleteVideo call the video DAO's Get / Delete once
with that parsed id; if the DAO returns dao.ErrVideoNotFound the handler returns
a nil response and the service-level ErrVideoNotFound; if the DAO returns any
other error e the handler returns a nil response and e itself, which matches e;
and if the DAO succeeds, GetVideo returns the video's ToProto() and DeleteVideo
an empty response, each with no error. -/
theorem C8_video_handlers_translate_dao_results (fromHex : String → Option ObjectID)
    (toProto : Video → VideoInfo) (videoDAO : VideoDAO σ Video) (reqId : String) (w : σ)
    (id : ObjectID) (hid : fromHex reqId = some id) :
    (GetVideo fromHex toProto videoDAO reqId w).calls = [Call.Get id] ∧
    (DeleteVideo fromHex videoDAO reqId w).calls = [Call.Delete id] ∧
    (∀ w1, videoDAO.Get id w = (.error dao.ErrVideoNotFound, w1) →
      GetVideo fromHex toProto videoDAO reqId w =
        ⟨none, some ErrVideoNotFound, [Call.Get id], w1⟩ ∧
      MatchError ErrVideoNotFound ErrVideoNotFound = true) ∧
    (∀ e w1, e ≠ dao.ErrVideoNotFound → videoDAO.Get id w = (.error e, w1) →
      GetVideo fromHex toProto videoDAO reqId w = ⟨none, some e, [Call.Get id], w1⟩ ∧
      MatchError e e = true) ∧
    (∀ video w1, videoDAO.Get id w = (.ok video, w1) →
      GetVideo fromHex toProto videoDAO reqId w =
        ⟨some ⟨toProto video⟩, none, [Call.Get id], w1⟩) ∧
    (∀ w1, videoDAO.Delete id w = (some dao.ErrVideoNotFound, w1) →
      DeleteVideo fromHex videoDAO reqId w =
        ⟨none, some ErrVideoNotFound, [Call.Delete id], w1⟩ ∧
      MatchError ErrVideoNotFound ErrVideoNotFound = true) ∧
    (∀ e w1, e ≠ dao.ErrVideoNotFound → videoDAO.Delete id w = (some e, w1) →
      DeleteVideo fromHex videoDAO reqId w = ⟨none, some e, [Call.Delete id], w1⟩ ∧
      MatchError e e = true) ∧
    (∀ w1, videoDAO.Delete id w = (none, w1) →
      DeleteVideo fromHex videoDAO reqId w = ⟨some ⟨⟩, none, [Call.Delete id], w1⟩) := by
  have hG := GetVideo_parsed fromHex toProto videoDAO reqId w id hid
  have hD := DeleteVideo_parsed fromHex videoDAO reqId w id hid
  refine ⟨?_, ?_, ?_, ?_, ?_, ?_, ?_, ?_⟩
  · rw [hG]
    rcases videoDAO.Get id w with ⟨r, w1⟩
    cases r with
    | ok video => rfl
    | error e => by_cases hb : e = dao.ErrVideoNotFound <;> simp [hb]
  · rw [hD]
    rcases videoDAO.Delete id w with ⟨r, w1⟩
    cases r with
    | none => rfl
    | some e => by_cases hb : e = dao.ErrVideoNotFound <;> simp [hb]
  · intro w1 h
    rw [hG, h]
    simp [MatchError_self]
  · intro e w1 he h
    rw [hG, h]
    simp [he, MatchError_self]
  · intro video w1 h
    rw [hG, h]
  · intro w1 h
    rw [hD, h]
    simp [MatchError_self]
  · intro e w1 he h
    rw [hD, h]
    simp [he, MatchError_self]
  · intro w1 h
    rw [hD, h]

theorem C8_video_handlers_translate_dao_results_witness :
    fromHex24 "64b7f0c2a1d3e4f5a6b7c8d9" = some 0x64b7f0c2a1d3e4f5a6b7c8d9 ∧
    hex24 0x64b7f0c2a1d3e4f5a6b7c8d9 = "64b7f0c2a1d3e4f5a6b7c8d9" ∧
    GetVideo fromHex24 (fun v => v) (mockVideoDAO (.error dao.ErrVideoNotFound) none)
        "64b7f0c2a1d3e4f5a6b7c8d9" 0 =
      ⟨none, some ErrVideoNotFound, [Call.Get 0x64b7f0c2a1d3e4f5a6b7c8d9], 1⟩ ∧
    GetVideo fromHex24 (fun v => v)
        (mockVideoDAO (.error (.sentinel "unknown mongo error")) none)
        "64b7f0c2a1d3e4f5a6b7c8d9" 0 =
      ⟨none, some (.sentinel "unknown mongo error"), [Call.Get 0x64b7f0c2a1d3e4f5a6b7c8d9], 1⟩ ∧
    GetVideo fromHex24 (fun v => v) (mockVideoDAO (.ok "a video") none)
        "64b7f0c2a1d3e4f5a6b7c8d9" 0 =
      ⟨some ⟨"a video"⟩, none, [Call.Get 0x64b7f0c2a1d3e4f5a6b7c8d9], 1⟩ ∧
    DeleteVideo fromHex24 (mockVideoDAO (.ok "a video") (some dao.ErrVideoNotFound))
        "64b7f0c2a1d3e4f5a6b7c8d9" 0 =
      ⟨none, some ErrVideoNotFound, [Call.Delete 0x64b7f0c2a1d3e4f5a6b7c8d9], 1⟩ ∧
    DeleteVideo fromHex24
        (mockVideoDAO (.ok "a video") (some (.wrap "delete" dao.ErrVideoNotFound)))
        "64b7f0c2a1d3e4f5a6b7c8d9" 0 =
      ⟨none, some (.wrap "delete" dao.ErrVideoNotFound),
        [Call.Delete 0x64b7f0c2a1d3e4f5a6b7c8d9], 1⟩ ∧
    DeleteVideo fromHex24 (mockVideoDAO (.ok "a video") none) "64b7f0c2a1d3e4f5a6b7c8d9" 0 =
      ⟨some ⟨⟩, none, [Call.Delete 0x64b7f0c2a1d3e4f5a6b7c8d9], 1⟩ :=
  ⟨by decide, by decide,
   ((C8_video_handlers_translate_dao_results fromHex24 (fun v => v)
      (mockVideoDAO (.error dao.ErrVideoNotFound) none) "64b7f0c2a1d3e4f5a6b7c8d9" 0
      0x64b7f0c2a1d3e4f5a6b7c8d9 (by decide)).2.2.1 1 rfl).1,
   ((C8_video_handlers_translate_dao_results fromHex24 (fun v => v)
      (mockVideoDAO (.error (.sentinel "unknown mongo error")) none) "64b7f0c2a1d3e4f5a6b7c8d9" 0
      0x64b7f0c2a1d3e4f5a6b7c8d9 (by decide)).2.2.2.1 (.sentinel "unknown mongo error") 1
      (by decide) rfl).1,
   (C8_video_handlers_translate_dao_results fromHex24 (fun v => v)
      (mockVideoDAO (.ok "a video") none) "64b7f0c2a1d3e4f5a6b7c8d9" 0
      0x64b7f0c2a1d3e4f5a6b7c8d9 (by decide)).2.2.2.2.1 "a video" 1 rfl,
   ((C8_video_handlers_translate_dao_results fromHex24 (fun v => v)
      (mockVideoDAO (.ok "a video") (some dao.ErrVideoNotFound)) "64b7f0c2a1d3e4f5a6b7c8d9" 0
      0x64b7f0c2a1d3e4f5a6b7c8d9 (by decide)).2.2.2.2.2.1 1 rfl).1,
   ((C8_video_handlers_translate_dao_results fromHex24 (fun v => v)
      (mockVideoDAO (.ok "a video") (some (.wrap "delete" dao.ErrVideoNotFound)))
      "64b7f0c2a1d3e4f5a6b7c8d9" 0
      0x64b7f0c2a1d3e4f5a6b7c8d9 (by decide)).2.2.2.2.2.2.1 (.wrap "delete" dao.ErrVideoNotFound) 1
      (by decide) rfl).1,
   (C8_video_handlers_translate_dao_results fromHex24 (fun v => v)
      (mockVideoDAO (.ok "a video") none) "64b7f0c2a1d3e4f5a6b7c8d9" 0
      0x64b7f0c2a1d3e4f5a6b7c8d9 (by decide)).2.2.2.2.2.2.2 1 rfl⟩

end VideoService
